import Mathlib

/-!
Verification of the deepfake-detection server (Express/TypeScript) against its
natural-language specification.  The definitions below are a shallow embedding
of the server routes in `server/routes/analyze.ts` (src/unnamed/part_002), the
test routes in `server/routes/test-api.ts` (src/unnamed/part_001), the server
factory (second half of src/unnamed/part_002) and the shared type module
`shared/api.ts`.  TypeScript numbers are modelled as rationals (`ℚ`); the
`Math.random()` draws are modelled as explicit parameters ranging over `[0,1)`;
environment variables are modelled as an explicit `Env` record; outbound vendor
HTTP calls are modelled as a list of endpoints each analysis function would
contact.
-/

/-- Risk levels, as in the return type of `getRiskLevel` (part_002 line 1001)
and `BaseAnalysisResult.riskLevel` (shared/api.ts line 53). -/
inductive RiskLevel
  | LOW
  | MEDIUM
  | HIGH
  | CRITICAL
deriving DecidableEq, Repr

/-- Confidence categories, as in `getConfidenceCategory` (part_002 line 1010)
and `BaseAnalysisResult.confidenceCategory` (shared/api.ts line 54). -/
inductive ConfidenceCategory
  | VERY_LOW
  | LOW
  | MEDIUM
  | HIGH
  | VERY_HIGH
deriving DecidableEq, Repr

/-- The `analysisQuality` values the server actually emits
(`isDemo ? 'DEMO' : 'API'`, part_002 lines 718, 840, 964). -/
inductive AnalysisQuality
  | DEMO
  | API
deriving DecidableEq, Repr

/-- `getRiskLevel` (part_002 lines 1001-1008): static threshold bucketing of the
confidence score into LOW/MEDIUM/HIGH/CRITICAL. -/
def getRiskLevel (confidence : ℚ) : RiskLevel :=
  if confidence ≥ 0.8 then .CRITICAL
  else if confidence ≥ 0.6 then .HIGH
  else if confidence ≥ 0.4 then .MEDIUM
  else if confidence ≥ 0.2 then .LOW
  else .LOW

/-- `getConfidenceCategory` (part_002 lines 1010-1017). -/
def getConfidenceCategory (confidence : ℚ) : ConfidenceCategory :=
  if confidence ≥ 0.9 then .VERY_HIGH
  else if confidence ≥ 0.7 then .HIGH
  else if confidence ≥ 0.5 then .MEDIUM
  else if confidence ≥ 0.3 then .LOW
  else .VERY_LOW

/-- `generateRecommendations` (part_002 lines 1019-1063).  The TypeScript
function also receives the risk level as a string but never reads it; the
embedding keeps the parameter.  The leading pictogram bytes of the first string
of each branch are mojibake in the source file and are elided here; only the
readable text is kept (no claim inspects string contents). -/
def generateRecommendations (confidence : ℚ) (riskLevel : RiskLevel) : List String :=
  if confidence ≥ 0.8 then
    ["CRITICAL: Very high probability of deepfake detected",
     "Exercise extreme caution - this media is likely manipulated",
     "Verify source and context immediately",
     "Consider additional verification methods",
     "Document findings for security purposes"]
  else if confidence ≥ 0.6 then
    ["HIGH: High probability of deepfake detected",
     "Approach with extreme caution",
     "Verify media source and authenticity thoroughly",
     "Look for additional verification clues",
     "Consider professional analysis if critical"]
  else if confidence ≥ 0.4 then
    ["MEDIUM: Moderate manipulation indicators detected",
     "Some suspicious patterns identified",
     "Verify source and check for metadata inconsistencies",
     "Compare with known authentic versions if available",
     "Proceed with caution"]
  else if confidence ≥ 0.2 then
    ["LOW: Minimal manipulation indicators",
     "Media appears mostly authentic",
     "Continue to verify source and context",
     "Monitor for any new detection methods"]
  else
    ["VERY LOW: No significant manipulation detected",
     "Media appears authentic based on current analysis",
     "Continue to verify source and context",
     "Monitor for any new detection methods"]

/-- `generateLimitations` (part_002 lines 1065-1092). -/
def generateLimitations (isDemo : Bool) (confidence : ℚ) : List String :=
  (if isDemo then
    ["Analysis performed in demo mode - results are simulated",
     "Real API credentials required for accurate detection",
     "Demo scores are randomly generated for demonstration purposes"]
   else []) ++
  (if confidence < 0.3 then
    ["Low confidence score may indicate unclear or ambiguous results",
     "Consider re-analyzing with different media or higher resolution",
     "Some manipulation techniques may evade current detection methods"]
   else []) ++
  ["Analysis based on current AI model capabilities",
   "New manipulation techniques may not be detected",
   "Results should be considered alongside other verification methods",
   "Professional verification recommended for critical applications"]

/-- Which of the five fixed threshold buckets (cut at 0.2, 0.4, 0.6, 0.8) a
confidence value falls in.  This is the quantity the spec says the
response-shaping functions depend on. -/
def thresholdBucket (confidence : ℚ) : ℕ :=
  if confidence ≥ 0.8 then 4
  else if confidence ≥ 0.6 then 3
  else if confidence ≥ 0.4 then 2
  else if confidence ≥ 0.2 then 1
  else 0

/-- `SUPPORTED_IMAGE_TYPES` (shared/api.ts line 200). -/
def SUPPORTED_IMAGE_TYPES : List String := ["image/jpeg", "image/png", "image/webp"]

/-- `SUPPORTED_VIDEO_TYPES` (shared/api.ts line 201). -/
def SUPPORTED_VIDEO_TYPES : List String := ["video/mp4", "video/webm", "video/mov"]

/-- `SUPPORTED_AUDIO_TYPES` (shared/api.ts line 202). -/
def SUPPORTED_AUDIO_TYPES : List String := ["audio/wav", "audio/mp3", "audio/m4a", "audio/ogg"]

/-- `ALL_SUPPORTED_TYPES` (shared/api.ts lines 204-208). -/
def ALL_SUPPORTED_TYPES : List String :=
  SUPPORTED_IMAGE_TYPES ++ SUPPORTED_VIDEO_TYPES ++ SUPPORTED_AUDIO_TYPES

/-- Return type of `getFileCategory` (shared/api.ts line 213). -/
inductive FileCategory
  | image
  | video
  | audio
  | unsupported
deriving DecidableEq, Repr

/-- `getFileCategory` (shared/api.ts lines 213-218). -/
def getFileCategory (mimeType : String) : FileCategory :=
  if mimeType ∈ SUPPORTED_IMAGE_TYPES then .image
  else if mimeType ∈ SUPPORTED_VIDEO_TYPES then .video
  else if mimeType ∈ SUPPORTED_AUDIO_TYPES then .audio
  else .unsupported

/-- The fields of `Express.Multer.File` that the `fileFilter` callback reads
(part_002 lines 42-93). -/
structure UploadedFile where
  originalname : String
  mimetype : String
  size : ℕ
deriving DecidableEq, Repr

/-- `suspiciousExtensions` (part_002 line 82). -/
def suspiciousExtensions : List String :=
  [".exe", ".bat", ".cmd", ".com", ".pif", ".scr", ".vbs", ".js", ".jar"]

/-- Substring test, modelling JavaScript `String.prototype.includes`:
the needle occurs in the haystack iff splitting on it yields more than one
piece. -/
def strContains (haystack needle : String) : Bool :=
  (haystack.splitOn needle).length > 1

/-- `path.extname` restricted to names without path separators (the filter
applies it only after rejecting names containing a separator): the suffix
starting at the last dot, or empty when there is no dot or the only dot is the
leading character. -/
def extname (name : String) : String :=
  let cs := name.toList
  match ((List.range cs.length).filter (fun i => cs.get? i = some '.')).getLast? with
  | none => ""
  | some i => if i = 0 then "" else String.mk (cs.drop i)

/-- Multer `limits.fileSize` as configured (part_002 line 40):
`10 * 1024 * 1024` bytes. -/
def multerFileSizeLimit : ℕ := 10 * 1024 * 1024

/-- Modelled from the spec: multer itself is an external library; per its
documented behaviour the configured `limits.fileSize` (part_002 lines 39-41)
makes the middleware reject any uploaded payload strictly larger than the
limit ("≤10MB" in the spec). -/
def multerSizeRejected (size : ℕ) : Bool := size > multerFileSizeLimit

/-- The `fileFilter` callback (part_002 lines 42-93): returns `some errorMessage`
when the callback is invoked with an error, `none` when the file is accepted.
Checks appear in source order. -/
def fileFilter (file : UploadedFile) : Option String :=
  if file.size > 10 * 1024 * 1024 then some "File size exceeds 10MB limit"
  else if file.size = 0 then some "File is empty"
  else if getFileCategory file.mimetype = .unsupported then
    some ("Unsupported file type: " ++ file.mimetype)
  else if file.originalname = "" ∨ file.originalname.length > 255 then
    some "Invalid filename"
  else if strContains file.originalname.toLower ".." ∨
      file.originalname.toLower.contains '/' ∨ file.originalname.toLower.contains '\\' then
    some "Invalid filename - path traversal not allowed"
  else if (extname file.originalname.toLower).toLower ∈ suspiciousExtensions then
    some ("File type not allowed: " ++ (extname file.originalname.toLower).toLower)
  else none

/-- HTTP error envelope produced by the `/api/analyze` route wrapper when the
multer upload middleware reports an error (part_002 lines 1414-1417):
status 400 with `success: false` and the error message. -/
structure UploadErrorResponse where
  status : ℕ
  success : Bool
  error : String
deriving DecidableEq, Repr

/-- The upload stage of the `/api/analyze` route (part_002 lines 1411-1419):
when `fileFilter` rejects, the route answers 400 `success: false`. -/
def analyzeUploadGate (file : UploadedFile) : Option UploadErrorResponse :=
  match fileFilter file with
  | some e => some { status := 400, success := false, error := e }
  | none => none

/-- The process environment variables the server reads (part_002 lines 100-101,
269-270, 1254-1258; part_001 line 70). `none` models an unset variable. -/
structure Env where
  sightengineUser : Option String
  sightengineSecret : Option String
  resembleApiKey : Option String
deriving DecidableEq, Repr

/-- JavaScript truthiness of an optional environment variable: unset and the
empty string are falsy. -/
def truthy : Option String → Bool
  | none => false
  | some s => s != ""

/-- The credential check `!SIGHTENGINE_USER || !SIGHTENGINE_SECRET` guarding the
Sightengine calls (part_002 lines 103, 272), as a positive predicate. -/
def Env.sightengineConfigured (env : Env) : Bool :=
  truthy env.sightengineUser && truthy env.sightengineSecret

/-- `isLikelyDeepfake = Math.random() > 0.8` in the image demo fallbacks
(part_002 lines 108, 252) and the video credentials-missing fallback (line 277). -/
def imageDemoIsLikelyDeepfake (r1 : ℚ) : Bool := decide (r1 > 0.8)

/-- The image-style demo confidence (part_002 lines 109-111, 253-255, 278-280):
`r2 * 0.3 + 0.7` for deepfake draws, `r2 * 0.4 + 0.1` for authentic draws.
`r1`, `r2` are the two `Math.random()` draws. -/
def imageDemoConfidence (r1 r2 : ℚ) : ℚ :=
  if r1 > 0.8 then r2 * 0.3 + 0.7 else r2 * 0.4 + 0.1

/-- The video API-error fallback confidence (part_002 lines 375-378):
`r2 * 0.25 + 0.05` for deepfake draws, `r2 * 0.35 + 0.65` for authentic draws. -/
def videoErrorDemoConfidence (r1 r2 : ℚ) : ℚ :=
  if r1 > 0.8 then r2 * 0.25 + 0.05 else r2 * 0.35 + 0.65

/-- `isSynthetic = Math.random() > 0.5` in the audio demo generator
(part_002 line 396). -/
def audioDemoIsSynthetic (r1 : ℚ) : Bool := decide (r1 > 0.5)

/-- The audio demo confidence (part_002 lines 398-405): `r2 * 0.25 + 0.7` for
synthetic draws, `r2 * 0.2 + 0.75` for authentic draws. -/
def audioDemoConfidence (r1 r2 : ℚ) : ℚ :=
  if r1 > 0.5 then r2 * 0.25 + 0.7 else r2 * 0.2 + 0.75

/-- The vendor HTTP endpoints the server can contact (part_002 lines 168, 302;
part_001 line 92). -/
inductive VendorEndpoint
  | sightengineCheckJson
  | sightengineVideoCheckSync
  | resembleDetect
deriving DecidableEq, Repr

/-- `ConfidenceFactor` entries of `processingDetails.confidenceFactors`
(shared/api.ts lines 72-77; built at part_002 lines 725-744, 847-866, 970-989). -/
structure ConfidenceFactor where
  factor : String
  weight : ℚ
  description : String
  impact : String
deriving DecidableEq, Repr

/-- `processingDetails` (shared/api.ts lines 63-70; built at part_002 lines
720-746, 842-868, 965-991). -/
structure ProcessingDetails where
  apiProvider : String
  modelsUsed : List String
  processingMethod : String
  qualityScore : ℚ
  confidenceFactors : List ConfidenceFactor
  processingWarnings : Option (List String)
deriving DecidableEq, Repr

/-- `imageAnalysis.faceDetection` as the server builds it (part_002 lines
676-684). -/
structure FaceDetection where
  facesDetected : ℚ
  faceQuality : ℚ
  facialFeatures : List String
deriving DecidableEq, Repr

/-- `imageAnalysis.manipulationIndicators` as the server builds it (part_002
lines 687-691). -/
structure ImageManipulationIndicators where
  compressionArtifacts : ℚ
  editingSigns : ℚ
  metadataInconsistencies : ℚ
deriving DecidableEq, Repr

/-- `imageAnalysis.technicalAnalysis` as the server builds it (part_002 lines
668-673). -/
structure ImageTechnicalAnalysis where
  resolution : String
  colorDepth : ℚ
  compressionType : String
deriving DecidableEq, Repr

/-- The `imageAnalysis` object of the enhanced image response (part_002 lines
749-753).  Its concrete numbers come from `Math.random()` draws in demo mode or
from the raw API data, so the embedding passes the payload as a parameter. -/
structure ImageAnalysisPayload where
  faceDetection : FaceDetection
  manipulationIndicators : ImageManipulationIndicators
  technicalAnalysis : ImageTechnicalAnalysis
deriving DecidableEq, Repr

/-- `videoAnalysis.frameAnalysis` as the server builds it (part_002 lines
792-804). -/
structure VideoFrameAnalysis where
  totalFrames : ℚ
  frameScores : List ℚ
  maxScore : ℚ
  averageScore : ℚ
deriving DecidableEq, Repr

/-- `videoAnalysis.manipulationIndicators` as the server builds it (part_002
lines 807-812). -/
structure VideoManipulationIndicators where
  temporalInconsistencies : ℚ
  frameEditingSigns : ℚ
  compressionArtifacts : ℚ
  audioVideoSync : ℚ
deriving DecidableEq, Repr

/-- `videoAnalysis.technicalAnalysis` as the server builds it (part_002 lines
783-789). -/
structure VideoTechnicalAnalysis where
  resolution : String
  duration : String
  fps : String
  framesAnalyzed : ℚ
  maxFrameScore : ℚ
deriving DecidableEq, Repr

/-- The `videoAnalysis` object of the enhanced video response (part_002 lines
871-875). -/
structure VideoAnalysisPayload where
  frameAnalysis : VideoFrameAnalysis
  manipulationIndicators : VideoManipulationIndicators
  technicalAnalysis : VideoTechnicalAnalysis
deriving DecidableEq, Repr

/-- `audioAnalysis.voiceCharacteristics` as the server builds it (part_002 lines
916-920, 931-935). -/
structure VoiceCharacteristics where
  naturalness : ℚ
  consistency : ℚ
  backgroundNoise : ℚ
deriving DecidableEq, Repr

/-- `audioAnalysis.syntheticIndicators` as the server builds it (part_002 lines
921-925, 936-940). -/
structure SyntheticIndicators where
  artificialPatterns : ℚ
  frequencyAnomalies : ℚ
  temporalInconsistencies : ℚ
deriving DecidableEq, Repr

/-- `audioAnalysis.qualityMetrics` as the server builds it (part_002 lines
926-929, 941-944). -/
structure QualityMetrics where
  clarity : ℚ
  stability : ℚ
deriving DecidableEq, Repr

/-- The `audioAnalysis` object of the enhanced audio response (part_002 lines
915-945, 994). -/
structure AudioAnalysisPayload where
  voiceCharacteristics : VoiceCharacteristics
  syntheticIndicators : SyntheticIndicators
  qualityMetrics : QualityMetrics
deriving DecidableEq, Repr

/-- The enhanced image/video response shape returned by
`generateEnhancedImageResponse` / `generateEnhancedVideoResponse` (part_002
lines 645-755 and 760-877): the fields the analyze handler later reads, plus
the media-analysis object. -/
structure EnhancedImageResponse where
  deepfakeProb : ℚ
  faceDeepfake : ℚ
  riskLevel : RiskLevel
  confidenceCategory : ConfidenceCategory
  analysisQuality : AnalysisQuality
  processingDetails : ProcessingDetails
  recommendations : List String
  limitations : List String
  imageAnalysis : ImageAnalysisPayload
deriving DecidableEq, Repr

/-- Enhanced video response shape (part_002 lines 825-877). -/
structure EnhancedVideoResponse where
  deepfakeProb : ℚ
  faceDeepfake : ℚ
  riskLevel : RiskLevel
  confidenceCategory : ConfidenceCategory
  analysisQuality : AnalysisQuality
  processingDetails : ProcessingDetails
  recommendations : List String
  limitations : List String
  videoAnalysis : VideoAnalysisPayload
deriving DecidableEq, Repr

/-- Enhanced audio response shape returned by `generateEnhancedAudioResponse`
(part_002 lines 955-995): `is_synthetic`, `confidence` and the shared enhanced
fields. -/
structure EnhancedAudioResponse where
  isSynthetic : Bool
  confidence : ℚ
  riskLevel : RiskLevel
  confidenceCategory : ConfidenceCategory
  analysisQuality : AnalysisQuality
  processingDetails : ProcessingDetails
  recommendations : List String
  limitations : List String
  audioAnalysis : AudioAnalysisPayload
deriving DecidableEq, Repr

/-- `generateEnhancedImageResponse` (part_002 lines 645-755). -/
def generateEnhancedImageResponse (confidence : ℚ) (isDemo : Bool)
    (payload : ImageAnalysisPayload) (errorMessage : Option String) :
    EnhancedImageResponse :=
  { deepfakeProb := confidence
    faceDeepfake := confidence
    riskLevel := getRiskLevel confidence
    confidenceCategory := getConfidenceCategory confidence
    analysisQuality := if isDemo then .DEMO else .API
    processingDetails :=
      { apiProvider := "Sightengine"
        modelsUsed := ["deepfake"]
        processingMethod := "AI-powered visual analysis"
        qualityScore := if isDemo then 0.6 else 0.9
        confidenceFactors :=
          [{ factor := "Visual Consistency", weight := 0.4
             description := "Analysis of image artifacts and inconsistencies"
             impact := if confidence > 0.7 then "NEGATIVE" else "POSITIVE" },
           { factor := "Face Detection Quality", weight := 0.3
             description := "Quality and number of detected faces"
             impact := if payload.faceDetection.faceQuality > 0.7 then "POSITIVE" else "NEGATIVE" },
           { factor := "Technical Metadata", weight := 0.3
             description := "File format and compression analysis"
             impact := "NEUTRAL" }]
        processingWarnings := errorMessage.map (fun e => [e]) }
    recommendations := generateRecommendations confidence (getRiskLevel confidence)
    limitations := generateLimitations isDemo confidence
    imageAnalysis := payload }

/-- `generateEnhancedVideoResponse` (part_002 lines 760-877). -/
def generateEnhancedVideoResponse (confidence : ℚ) (isDemo : Bool)
    (payload : VideoAnalysisPayload) (errorMessage : Option String) :
    EnhancedVideoResponse :=
  { deepfakeProb := confidence
    faceDeepfake := confidence
    riskLevel := getRiskLevel confidence
    confidenceCategory := getConfidenceCategory confidence
    analysisQuality := if isDemo then .DEMO else .API
    processingDetails :=
      { apiProvider := "Sightengine"
        modelsUsed := ["deepfake"]
        processingMethod := "AI-powered video frame analysis"
        qualityScore := if isDemo then 0.6 else 0.9
        confidenceFactors :=
          [{ factor := "Frame Consistency", weight := 0.4
             description := "Analysis of temporal consistency across video frames"
             impact := if confidence > 0.7 then "NEGATIVE" else "POSITIVE" },
           { factor := "Frame Analysis Coverage", weight := 0.3
             description := "Number and quality of analyzed frames"
             impact := if payload.frameAnalysis.totalFrames > 20 then "POSITIVE" else "NEGATIVE" },
           { factor := "Temporal Artifacts", weight := 0.3
             description := "Detection of time-based manipulation indicators"
             impact := "NEUTRAL" }]
        processingWarnings := errorMessage.map (fun e => [e]) }
    recommendations := generateRecommendations confidence (getRiskLevel confidence)
    limitations := generateLimitations isDemo confidence
    videoAnalysis := payload }

/-- `generateEnhancedAudioResponse` (part_002 lines 882-996). -/
def generateEnhancedAudioResponse (confidence : ℚ) (isDeepfake : Bool)
    (isDemo : Bool) (payload : AudioAnalysisPayload) (errorMessage : Option String) :
    EnhancedAudioResponse :=
  { isSynthetic := isDeepfake
    confidence := confidence
    riskLevel := getRiskLevel confidence
    confidenceCategory := getConfidenceCategory confidence
    analysisQuality := if isDemo then .DEMO else .API
    processingDetails :=
      { apiProvider := "Resemble AI"
        modelsUsed := ["voice_synthesis_detection"]
        processingMethod := "AI-powered audio pattern analysis"
        qualityScore := if isDemo then 0.6 else 0.9
        confidenceFactors :=
          [{ factor := "Voice Naturalness", weight := 0.4
             description := "Analysis of voice characteristics and natural patterns"
             impact := if payload.voiceCharacteristics.naturalness > 0.7 then "POSITIVE" else "NEGATIVE" },
           { factor := "Synthetic Indicators", weight := 0.4
             description := "Detection of artificial voice synthesis patterns"
             impact := if payload.syntheticIndicators.artificialPatterns > 0.5 then "NEGATIVE" else "POSITIVE" },
           { factor := "Audio Quality", weight := 0.2
             description := "Overall audio clarity and stability metrics"
             impact := "NEUTRAL" }]
        processingWarnings := errorMessage.map (fun e => [e]) }
    recommendations := generateRecommendations confidence (getRiskLevel confidence)
    limitations := generateLimitations isDemo confidence
    audioAnalysis := payload }

/-- Outcome of the Sightengine image call attempt, when credentials are
configured: success with the extracted deepfake score (part_002 lines 184-193),
an axios 429 which `analyzeImage` rethrows instead of falling back (lines
225-228), or any other failure, which falls back to demo data (lines 234-261). -/
inductive SightengineOutcome
  | ok (score : ℚ)
  | rateLimited
  | failed
deriving DecidableEq, Repr

/-- Outcome of the Sightengine video call attempt: success with the final
frame-max deepfake score (part_002 lines 315-343) or any failure, which falls
back to demo data (lines 363-385). -/
inductive VideoOutcome
  | ok (score : ℚ)
  | failed
deriving DecidableEq, Repr

/-- `analyzeImage` (part_002 lines 99-263): returns the enhanced response (or a
thrown error, for the 429 case) together with the outbound vendor calls the
function performs.  With credentials missing no call is made and a demo
response is produced; with credentials configured `check.json` is contacted,
and failures other than a 429 also fall back to a demo response. -/
def analyzeImage (env : Env) (outcome : SightengineOutcome) (r1 r2 : ℚ)
    (demoPayload apiPayload : ImageAnalysisPayload) :
    Except String EnhancedImageResponse × List VendorEndpoint :=
  if !env.sightengineConfigured then
    (.ok (generateEnhancedImageResponse (imageDemoConfidence r1 r2) true demoPayload
      (some "Sightengine API credentials not configured")), [])
  else
    match outcome with
    | .ok score =>
        (.ok (generateEnhancedImageResponse score false apiPayload none),
         [.sightengineCheckJson])
    | .rateLimited =>
        (.error "API rate limit exceeded. Please wait 60 seconds before trying again.",
         [.sightengineCheckJson])
    | .failed =>
        (.ok (generateEnhancedImageResponse (imageDemoConfidence r1 r2) true demoPayload
          (some "API call failed")), [.sightengineCheckJson])

/-- `analyzeVideo` (part_002 lines 268-386): with credentials missing a demo
response using the image-style confidence ranges (lines 277-280); with
credentials configured `video/check-sync.json` is contacted and failures fall
back to a demo response with the inverted confidence ranges (lines 375-378). -/
def analyzeVideo (env : Env) (outcome : VideoOutcome) (r1 r2 : ℚ)
    (demoPayload apiPayload : VideoAnalysisPayload) :
    EnhancedVideoResponse × List VendorEndpoint :=
  if !env.sightengineConfigured then
    (generateEnhancedVideoResponse (imageDemoConfidence r1 r2) true demoPayload
      (some "Sightengine API credentials not configured"), [])
  else
    match outcome with
    | .ok score =>
        (generateEnhancedVideoResponse score false apiPayload none,
         [.sightengineVideoCheckSync])
    | .failed =>
        (generateEnhancedVideoResponse (videoErrorDemoConfidence r1 r2) true demoPayload
          (some "Video API call failed"), [.sightengineVideoCheckSync])

/-- `analyzeAudio` (part_002 lines 391-414): the body reads no environment
variable and performs no HTTP request at all; it always resolves, after a
2-second delay, to a demo response built from two random draws. -/
def analyzeAudio (r1 r2 : ℚ) (payload : AudioAnalysisPayload) :
    EnhancedAudioResponse × List VendorEndpoint :=
  (generateEnhancedAudioResponse (audioDemoConfidence r1 r2) (audioDemoIsSynthetic r1)
    true payload none, [])

/-- `testResembleAPI` (part_001 lines 68-134): the separate test route
`GET /api/test-resemble` is the only place the Resemble `detect` endpoint is
contacted, and only when `RESEMBLE_API_KEY` is truthy. -/
def testResembleAPICalls (env : Env) : List VendorEndpoint :=
  if truthy env.resembleApiKey then [.resembleDetect] else []

/-- The `BaseAnalysisResult` fields that every branch of the analyze handler
writes into `analysisResult` (shared/api.ts lines 47-61; part_002 lines
1117-1138, 1150-1171, 1186-1206). -/
structure BaseFields where
  isDeepfake : Bool
  confidence : ℚ
  analysisTime : ℤ
  riskLevel : RiskLevel
  confidenceCategory : ConfidenceCategory
  analysisQuality : AnalysisQuality
  processingDetails : ProcessingDetails
  recommendations : List String
  limitations : List String
deriving DecidableEq, Repr

/-- The three result shapes the analyze handler constructs (part_002 lines
1114-1218), mirroring the `AnalysisResult` union of shared/api.ts line 151:
image and video carry `sightengineData` and their media-analysis object, audio
carries `resembleData` and the audio analysis object. -/
inductive AnalysisResult where
  | image (base : BaseFields) (sightengineData : EnhancedImageResponse)
      (imageAnalysis : ImageAnalysisPayload)
  | video (base : BaseFields) (sightengineData : EnhancedVideoResponse)
      (videoAnalysis : VideoAnalysisPayload)
  | audio (base : BaseFields) (resembleData : EnhancedAudioResponse)
      (audioAnalysis : AudioAnalysisPayload)
deriving DecidableEq, Repr

/-- The `type` discriminator of a constructed result. -/
def AnalysisResult.typeTag : AnalysisResult → FileCategory
  | .image _ _ _ => .image
  | .video _ _ _ => .video
  | .audio _ _ _ => .audio

/-- The `BaseAnalysisResult` fields of a constructed result. -/
def AnalysisResult.base : AnalysisResult → BaseFields
  | .image b _ _ => b
  | .video b _ _ => b
  | .audio b _ _ => b

/-- The nondeterministic inputs of one request to the analyze handler: the
vendor call outcomes, the random draws, the elapsed time, and the
randomness/API-derived media-analysis payloads. -/
structure AnalyzeInputs where
  imageOutcome : SightengineOutcome
  videoOutcome : VideoOutcome
  r1 : ℚ
  r2 : ℚ
  elapsed : ℤ
  imgDemoPayload : ImageAnalysisPayload
  imgApiPayload : ImageAnalysisPayload
  vidDemoPayload : VideoAnalysisPayload
  vidApiPayload : VideoAnalysisPayload
  audPayload : AudioAnalysisPayload
deriving DecidableEq, Repr

/-- JSON envelope of `POST /api/analyze` (part_002 lines 1099-1104, 1224-1241). -/
structure AnalyzeResponse where
  status : ℕ
  success : Bool
  result : Option AnalysisResult
  error : Option String
deriving DecidableEq, Repr

/-- `handleAnalyze` (part_002 lines 1097-1242): dispatches on the file category;
image and video set `isDeepfake := confidence > 0.7` from the enhanced
response's `deepfake.prob`, audio sets `isDeepfake := is_synthetic`; a thrown
error (missing file aside) yields a 500 envelope with `success: false`. -/
def handleAnalyze (env : Env) (file : Option UploadedFile) (inp : AnalyzeInputs) :
    AnalyzeResponse :=
  match file with
  | none => { status := 400, success := false, result := none, error := some "No file uploaded" }
  | some f =>
    match getFileCategory f.mimetype with
    | .image =>
      match (analyzeImage env inp.imageOutcome inp.r1 inp.r2
          inp.imgDemoPayload inp.imgApiPayload).1 with
      | .error e => { status := 500, success := false, result := none, error := some e }
      | .ok resp =>
        { status := 200, success := true, error := none
          result := some (.image
            { isDeepfake := decide (resp.deepfakeProb > 0.7)
              confidence := resp.deepfakeProb
              analysisTime := inp.elapsed
              riskLevel := resp.riskLevel
              confidenceCategory := resp.confidenceCategory
              analysisQuality := resp.analysisQuality
              processingDetails := resp.processingDetails
              recommendations := resp.recommendations
              limitations := resp.limitations } resp resp.imageAnalysis) }
    | .video =>
      let resp := (analyzeVideo env inp.videoOutcome inp.r1 inp.r2
        inp.vidDemoPayload inp.vidApiPayload).1
      { status := 200, success := true, error := none
        result := some (.video
          { isDeepfake := decide (resp.deepfakeProb > 0.7)
            confidence := resp.deepfakeProb
            analysisTime := inp.elapsed
            riskLevel := resp.riskLevel
            confidenceCategory := resp.confidenceCategory
            analysisQuality := resp.analysisQuality
            processingDetails := resp.processingDetails
            recommendations := resp.recommendations
            limitations := resp.limitations } resp resp.videoAnalysis) }
    | .audio =>
      let resp := (analyzeAudio inp.r1 inp.r2 inp.audPayload).1
      { status := 200, success := true, error := none
        result := some (.audio
          { isDeepfake := resp.isSynthetic
            confidence := resp.confidence
            analysisTime := inp.elapsed
            riskLevel := resp.riskLevel
            confidenceCategory := resp.confidenceCategory
            analysisQuality := resp.analysisQuality
            processingDetails := resp.processingDetails
            recommendations := resp.recommendations
            limitations := resp.limitations } resp resp.audioAnalysis) }
    | .unsupported =>
      { status := 500, success := false, result := none, error := some "Unsupported file type" }

/-- The analysis quality of an image analysis attempt, `none` when the call
threw (the rethrown 429 case). -/
def imageResponseQuality (x : Except String EnhancedImageResponse) :
    Option AnalysisQuality :=
  x.toOption.map (fun r => r.analysisQuality)

/-- A fully configured environment: all three vendor credentials set. -/
def envAll : Env :=
  { sightengineUser := some "user", sightengineSecret := some "secret",
    resembleApiKey := some "key" }

/-- A concrete image-analysis payload (the demo values of part_002 lines
668-691 at fixed draws). -/
def sampleImagePayload : ImageAnalysisPayload :=
  { faceDetection :=
      { facesDetected := 2, faceQuality := 0.8, facialFeatures := ["eyes", "nose", "mouth"] }
    manipulationIndicators :=
      { compressionArtifacts := 0.1, editingSigns := 0.2, metadataInconsistencies := 0.05 }
    technicalAnalysis :=
      { resolution := "1024x768", colorDepth := 24, compressionType := "demo" } }

/-- A concrete video-analysis payload (the demo values of part_002 lines
783-812 at fixed draws). -/
def sampleVideoPayload : VideoAnalysisPayload :=
  { frameAnalysis :=
      { totalFrames := 20, frameScores := [0.1, 0.2], maxScore := 0.2, averageScore := 0.15 }
    manipulationIndicators :=
      { temporalInconsistencies := 0.2, frameEditingSigns := 0.1,
        compressionArtifacts := 0.1, audioVideoSync := 0.1 }
    technicalAnalysis :=
      { resolution := "1920x1080", duration := "15.6", fps := "30",
        framesAnalyzed := 0, maxFrameScore := 0 } }

/-- A concrete audio-analysis payload (the demo values of part_002 lines
915-929 at fixed draws). -/
def sampleAudioPayload : AudioAnalysisPayload :=
  { voiceCharacteristics :=
      { naturalness := 0.5, consistency := 0.6, backgroundNoise := 0.1 }
    syntheticIndicators :=
      { artificialPatterns := 0.3, frequencyAnomalies := 0.2, temporalInconsistencies := 0.2 }
    qualityMetrics := { clarity := 0.6, stability := 0.5 } }

/-- Concrete nondeterministic inputs for one request. -/
def sampleInputs : AnalyzeInputs :=
  { imageOutcome := .failed, videoOutcome := .failed, r1 := 0.6, r2 := 0.5,
    elapsed := 1200, imgDemoPayload := sampleImagePayload,
    imgApiPayload := sampleImagePayload, vidDemoPayload := sampleVideoPayload,
    vidApiPayload := sampleVideoPayload, audPayload := sampleAudioPayload }

/-- Required (non-optional) members of `VideoAnalysisResult.videoAnalysis` as
declared in the shared union (shared/api.ts lines 107-124; `audioAnalysis` is
optional there). -/
def sharedVideoAnalysisRequiredFields : List String :=
  ["frameAnalysis", "temporalAnalysis"]

/-- Members of the declared `videoAnalysis.frameAnalysis` (shared/api.ts lines
108-113). -/
def sharedVideoFrameAnalysisFields : List String :=
  ["totalFrames", "analyzedFrames", "frameRate", "keyFrames"]

/-- Members of `AudioAnalysisResult.audioAnalysis` as declared in the shared
union (shared/api.ts lines 131-148). -/
def sharedAudioAnalysisRequiredFields : List String :=
  ["voiceCharacteristics", "technicalMetrics", "synthesisIndicators"]

/-- Members of the declared `audioAnalysis.voiceCharacteristics`
(shared/api.ts lines 132-136). -/
def sharedVoiceCharacteristicsFields : List String :=
  ["naturalness", "consistency", "emotionStability"]

/-- Members of the `videoAnalysis` object the server actually builds (part_002
lines 871-875, via lines 783-812). -/
def serverVideoAnalysisFields : List String :=
  ["frameAnalysis", "manipulationIndicators", "technicalAnalysis"]

/-- Members of the `frameAnalysis` object the server actually builds (part_002
lines 792-804). -/
def serverVideoFrameAnalysisFields : List String :=
  ["totalFrames", "frameScores", "maxScore", "averageScore"]

/-- Members of the `audioAnalysis` object the server actually builds (part_002
lines 915-945). -/
def serverAudioAnalysisFields : List String :=
  ["voiceCharacteristics", "syntheticIndicators", "qualityMetrics"]

/-- Members of the `voiceCharacteristics` object the server actually builds
(part_002 lines 916-920, 931-935). -/
def serverVoiceCharacteristicsFields : List String :=
  ["naturalness", "consistency", "backgroundNoise"]

/-- A file in the uploads directory: name and modification time in epoch
milliseconds (`stats.mtime.getTime()`, part_002 line 1563). -/
structure StoredFile where
  name : String
  mtimeMs : ℤ
deriving DecidableEq, Repr

/-- `ageInHours` (part_002 line 1563): `(Date.now() - stats.mtime.getTime()) /
(1000 * 60 * 60)`. -/
def ageInHours (nowMs : ℤ) (f : StoredFile) : ℚ :=
  ((nowMs - f.mtimeMs : ℤ) : ℚ) / (1000 * 60 * 60)

/-- The deletion loop of `POST /api/cleanup-files` (part_002 lines 1560-1570):
walks the directory listing, unlinks every file with `ageInHours > 24` and
counts the deletions.  Returns the remaining files and `cleanedCount`. -/
def cleanupLoop (nowMs : ℤ) : List StoredFile → List StoredFile × ℕ
  | [] => ([], 0)
  | f :: rest =>
    let tail := cleanupLoop nowMs rest
    if ageInHours nowMs f > 24 then (tail.1, tail.2 + 1) else (f :: tail.1, tail.2)

/-- Response of `POST /api/cleanup-files` (part_002 lines 1572-1576). -/
structure CleanupResponse where
  success : Bool
  cleanedCount : ℕ
deriving DecidableEq, Repr

/-- The cleanup endpoint (part_002 lines 1548-1581) on an existing uploads
directory: run the deletion loop and answer `success: true` with the count. -/
def cleanupFilesEndpoint (nowMs : ℤ) (files : List StoredFile) : CleanupResponse :=
  { success := true, cleanedCount := (cleanupLoop nowMs files).2 }

/-- **C1**: `getRiskLevel` returns CRITICAL iff `c ≥ 0.8`, HIGH iff
`0.6 ≤ c < 0.8`, MEDIUM iff `0.4 ≤ c < 0.6`, and LOW iff `c < 0.4`; the 0.2
boundary separates two comment-documented sub-ranges that both produce LOW, and
the result is always one of the four levels. -/
theorem getRiskLevel_buckets (c : ℚ) :
    (getRiskLevel c = .CRITICAL ↔ 0.8 ≤ c) ∧
    (getRiskLevel c = .HIGH ↔ 0.6 ≤ c ∧ c < 0.8) ∧
    (getRiskLevel c = .MEDIUM ↔ 0.4 ≤ c ∧ c < 0.6) ∧
    (getRiskLevel c = .LOW ↔ c < 0.4) ∧
    getRiskLevel 0.2 = .LOW ∧ getRiskLevel 0.1 = .LOW ∧
    (getRiskLevel c = .LOW ∨ getRiskLevel c = .MEDIUM ∨
      getRiskLevel c = .HIGH ∨ getRiskLevel c = .CRITICAL) := by
  refine ⟨?_, ?_, ?_, ?_, by norm_num [getRiskLevel], by norm_num [getRiskLevel], ?_⟩ <;>
    · unfold getRiskLevel
      split_ifs <;> simp_all <;> intros <;> linarith

/-- **C6**: the response-shaping functions are deterministic lookup tables over
the five fixed threshold buckets: if two confidence values fall in the same
bucket then `getRiskLevel` and `generateRecommendations` return identical
results, and `generateRecommendations` does not depend on its risk-level
argument at all. -/
theorem responseShaping_bucket_lookup (c₁ c₂ : ℚ) (rl₁ rl₂ : RiskLevel)
    (h : thresholdBucket c₁ = thresholdBucket c₂) :
    getRiskLevel c₁ = getRiskLevel c₂ ∧
    generateRecommendations c₁ rl₁ = generateRecommendations c₂ rl₂ ∧
    generateRecommendations c₁ rl₁ = generateRecommendations c₁ rl₂ := by
  unfold thresholdBucket at h
  refine ⟨?_, ?_, rfl⟩
  · unfold getRiskLevel
    split_ifs at h ⊢ <;> first | rfl | omega
  · unfold generateRecommendations
    split_ifs at h ⊢ <;> first | rfl | omega

/-- Witness for `responseShaping_bucket_lookup` at confidences 0.45 and 0.55
(both in the MEDIUM bucket) with different risk-level arguments. -/
theorem responseShaping_bucket_lookup_witness :
    getRiskLevel 0.45 = getRiskLevel 0.55 ∧
    generateRecommendations 0.45 .MEDIUM = generateRecommendations 0.55 .HIGH ∧
    generateRecommendations 0.45 .MEDIUM = generateRecommendations 0.45 .HIGH :=
  responseShaping_bucket_lookup 0.45 0.55 .MEDIUM .HIGH (by norm_num [thresholdBucket])

/-- **C4**: validation rejects every upload whose mime type is outside the
whitelist (equivalently, `getFileCategory` returns `unsupported`, which holds
exactly when the mime type is not in `ALL_SUPPORTED_TYPES`), answering
`success = false`; and every payload strictly larger than 10 MB is rejected
both by the configured multer size limit and by the filter itself. -/
theorem upload_validation_rejects (file : UploadedFile) :
    (getFileCategory file.mimetype = .unsupported ↔ file.mimetype ∉ ALL_SUPPORTED_TYPES) ∧
    (getFileCategory file.mimetype = .unsupported →
      ∃ e, fileFilter file = some e ∧
        analyzeUploadGate file = some { status := 400, success := false, error := e }) ∧
    (file.size > 10 * 1024 * 1024 →
      multerSizeRejected file.size = true ∧
      fileFilter file = some "File size exceeds 10MB limit" ∧
      analyzeUploadGate file =
        some { status := 400, success := false, error := "File size exceeds 10MB limit" }) := by
  refine ⟨?_, ?_, ?_⟩
  · unfold getFileCategory ALL_SUPPORTED_TYPES
    split_ifs <;> simp_all [List.mem_append]
  · intro h
    unfold analyzeUploadGate
    unfold fileFilter
    split_ifs <;> simp_all
  · intro h
    have hm : multerSizeRejected file.size = true := by
      unfold multerSizeRejected multerFileSizeLimit
      simpa using h
    unfold analyzeUploadGate
    unfold fileFilter
    split_ifs <;> simp_all

/-- Witness for `upload_validation_rejects`: a `text/plain` file is rejected as
unsupported, and an 10 MB + 1 byte PNG is rejected by the size checks. -/
theorem upload_validation_rejects_witness :
    (∃ e, fileFilter ⟨"notes.txt", "text/plain", 5⟩ = some e ∧
      analyzeUploadGate ⟨"notes.txt", "text/plain", 5⟩ =
        some { status := 400, success := false, error := e }) ∧
    (multerSizeRejected 10485761 = true ∧
      fileFilter ⟨"big.png", "image/png", 10485761⟩ = some "File size exceeds 10MB limit" ∧
      analyzeUploadGate ⟨"big.png", "image/png", 10485761⟩ =
        some { status := 400, success := false, error := "File size exceeds 10MB limit" }) :=
  ⟨(upload_validation_rejects ⟨"notes.txt", "text/plain", 5⟩).2.1 (by decide),
   (upload_validation_rejects ⟨"big.png", "image/png", 10485761⟩).2.2 (by norm_num)⟩

/-- **C2, counterexample**: demo mode does not activate precisely when vendor
credentials are absent.  With every credential set (`envAll`), an audio request
still produces a DEMO-quality result — `analyzeAudio` never consults
`RESEMBLE_API_KEY` — and an image request whose Sightengine call fails also
produces a DEMO-quality result despite the configured credentials. -/
theorem demoMode_iff_credentials_counterexample :
    truthy envAll.resembleApiKey = true ∧
    (analyzeAudio 0.6 0.5 sampleAudioPayload).1.analysisQuality = .DEMO ∧
    envAll.sightengineConfigured = true ∧
    imageResponseQuality
      (analyzeImage envAll .failed 0.5 0.5 sampleImagePayload sampleImagePayload).1 =
      some .DEMO := by
  refine ⟨rfl, rfl, rfl, ?_⟩
  rfl

/-- **C2, amended**: image and video results are demo data exactly when the
Sightengine credentials are unset or the vendor call fails — except that an
image 429 rate-limit failure is rethrown and becomes an error response instead
of demo data — and audio results are always demo data, regardless of
`RESEMBLE_API_KEY`. -/
theorem demoMode_amended (env : Env) (o : SightengineOutcome) (vo : VideoOutcome)
    (r1 r2 : ℚ) (pd pa : ImageAnalysisPayload) (vpd vpa : VideoAnalysisPayload)
    (apd : AudioAnalysisPayload) :
    (imageResponseQuality (analyzeImage env o r1 r2 pd pa).1 = some .DEMO ↔
      (env.sightengineConfigured = false ∨ o = .failed)) ∧
    imageResponseQuality (analyzeImage env .rateLimited r1 r2 pd pa).1 =
      (if env.sightengineConfigured then none else some .DEMO) ∧
    ((analyzeVideo env vo r1 r2 vpd vpa).1.analysisQuality = .DEMO ↔
      (env.sightengineConfigured = false ∨ vo = .failed)) ∧
    (analyzeAudio r1 r2 apd).1.analysisQuality = .DEMO := by
  cases h : env.sightengineConfigured <;> cases o <;> cases vo <;>
    simp_all [analyzeImage, analyzeVideo, analyzeAudio, imageResponseQuality,
      generateEnhancedImageResponse, generateEnhancedVideoResponse,
      generateEnhancedAudioResponse, Except.toOption]

/-- **C3, counterexample**: audio analysis never performs an outbound call to
the Resemble `detect` endpoint, even with a Resemble API key configured; the
list of vendor endpoints the audio path contacts is empty. -/
theorem audioForwarding_counterexample :
    truthy envAll.resembleApiKey = true ∧
    (analyzeAudio 0.6 0.5 sampleAudioPayload).2 = [] ∧
    VendorEndpoint.resembleDetect ∉ (analyzeAudio 0.6 0.5 sampleAudioPayload).2 := by
  refine ⟨rfl, rfl, ?_⟩
  simp [analyzeAudio]

/-- **C3, amended**: with Sightengine credentials configured, image requests
are forwarded to `check.json` and video requests to `video/check-sync.json`
(and to nothing otherwise), but audio requests contact no vendor endpoint at
all — in particular never Resemble `detect`, which only the separate
`GET /api/test-resemble` route contacts, and only when `RESEMBLE_API_KEY` is
truthy. -/
theorem vendorForwarding_amended (env : Env) (o : SightengineOutcome)
    (vo : VideoOutcome) (r1 r2 : ℚ) (pd pa : ImageAnalysisPayload)
    (vpd vpa : VideoAnalysisPayload) (apd : AudioAnalysisPayload) :
    (analyzeImage env o r1 r2 pd pa).2 =
      (if env.sightengineConfigured then [.sightengineCheckJson] else []) ∧
    (analyzeVideo env vo r1 r2 vpd vpa).2 =
      (if env.sightengineConfigured then [.sightengineVideoCheckSync] else []) ∧
    (analyzeAudio r1 r2 apd).2 = [] ∧
    VendorEndpoint.resembleDetect ∉ (analyzeImage env o r1 r2 pd pa).2 ∧
    VendorEndpoint.resembleDetect ∉ (analyzeVideo env vo r1 r2 vpd vpa).2 ∧
    VendorEndpoint.resembleDetect ∉ (analyzeAudio r1 r2 apd).2 ∧
    (VendorEndpoint.resembleDetect ∈ testResembleAPICalls env ↔
      truthy env.resembleApiKey = true) := by
  cases h : env.sightengineConfigured <;> cases hr : truthy env.resembleApiKey <;>
    cases o <;> cases vo <;>
    simp_all [analyzeImage, analyzeVideo, analyzeAudio, testResembleAPICalls]

/-- **C9**: when the Sightengine video call fails, the demo fallback inverts
the confidence scale relative to the image fallback: deepfake draws
(`r1 > 0.8`, probability 0.2 of the uniform draw) get confidence in
`[0.05, 0.30)`, authentic draws get confidence in `[0.65, 1.00)`; hence under
the downstream `isDeepfake = confidence > 0.7` rule only authentic draws can be
classified as deepfakes — while the image fallback gives deepfake draws
confidence at least 0.7 and authentic draws confidence below 0.5. -/
theorem videoErrorFallback_inverted (r1 r2 : ℚ) (h0 : 0 ≤ r2) (h1 : r2 < 1) :
    (r1 > 0.8 → 0.05 ≤ videoErrorDemoConfidence r1 r2 ∧
      videoErrorDemoConfidence r1 r2 < 0.3 ∧
      ¬ videoErrorDemoConfidence r1 r2 > 0.7) ∧
    (¬ r1 > 0.8 → 0.65 ≤ videoErrorDemoConfidence r1 r2 ∧
      videoErrorDemoConfidence r1 r2 < 1) ∧
    (videoErrorDemoConfidence r1 r2 > 0.7 → ¬ r1 > 0.8) ∧
    (r1 > 0.8 → 0.7 ≤ imageDemoConfidence r1 r2) ∧
    (¬ r1 > 0.8 → imageDemoConfidence r1 r2 < 0.5) := by
  unfold videoErrorDemoConfidence imageDemoConfidence
  split_ifs with h <;>
    exact ⟨fun hh => ⟨by linarith, by linarith, fun hc => by linarith⟩,
           fun hh => ⟨by linarith, by linarith⟩,
           fun hc hh => by linarith,
           fun hh => by linarith,
           fun hh => by linarith⟩

/-- Witness for `videoErrorFallback_inverted` at the deepfake draw
`r1 = 0.9, r2 = 0.5` and the authentic draw `r1 = 0.3, r2 = 0.5`. -/
theorem videoErrorFallback_inverted_witness :
    (0.05 ≤ videoErrorDemoConfidence 0.9 0.5 ∧ videoErrorDemoConfidence 0.9 0.5 < 0.3 ∧
      ¬ videoErrorDemoConfidence 0.9 0.5 > 0.7) ∧
    (0.65 ≤ videoErrorDemoConfidence 0.3 0.5 ∧ videoErrorDemoConfidence 0.3 0.5 < 1) :=
  ⟨(videoErrorFallback_inverted 0.9 0.5 (by norm_num) (by norm_num)).1 (by norm_num),
   (videoErrorFallback_inverted 0.3 0.5 (by norm_num) (by norm_num)).2.1 (by norm_num)⟩

/-- **C10**: for every random draw in `[0, 1)`, each demo confidence generator
produces a value in `[0, 1]`, landing in the documented sub-ranges: the image
fallback in `[0.7, 1.0)` for deepfake draws and `[0.1, 0.5)` for authentic
draws, the video error fallback in `[0.05, 0.30)` or `[0.65, 1.00)`, and the
audio generator in `[0.70, 0.95)` or `[0.75, 0.95)` — so the bucketing
functions always receive an in-range input in demo mode. -/
theorem demoConfidence_ranges (r1 r2 : ℚ) (h0 : 0 ≤ r2) (h1 : r2 < 1) :
    (r1 > 0.8 → 0.7 ≤ imageDemoConfidence r1 r2 ∧ imageDemoConfidence r1 r2 < 1) ∧
    (¬ r1 > 0.8 → 0.1 ≤ imageDemoConfidence r1 r2 ∧ imageDemoConfidence r1 r2 < 0.5) ∧
    (r1 > 0.8 → 0.05 ≤ videoErrorDemoConfidence r1 r2 ∧
      videoErrorDemoConfidence r1 r2 < 0.3) ∧
    (¬ r1 > 0.8 → 0.65 ≤ videoErrorDemoConfidence r1 r2 ∧
      videoErrorDemoConfidence r1 r2 < 1) ∧
    (r1 > 0.5 → 0.7 ≤ audioDemoConfidence r1 r2 ∧ audioDemoConfidence r1 r2 < 0.95) ∧
    (¬ r1 > 0.5 → 0.75 ≤ audioDemoConfidence r1 r2 ∧ audioDemoConfidence r1 r2 < 0.95) ∧
    (0 ≤ imageDemoConfidence r1 r2 ∧ imageDemoConfidence r1 r2 ≤ 1) ∧
    (0 ≤ videoErrorDemoConfidence r1 r2 ∧ videoErrorDemoConfidence r1 r2 ≤ 1) ∧
    (0 ≤ audioDemoConfidence r1 r2 ∧ audioDemoConfidence r1 r2 ≤ 1) := by
  unfold imageDemoConfidence videoErrorDemoConfidence audioDemoConfidence
  split_ifs with ha hb hb <;>
    exact ⟨fun hh => ⟨by linarith, by linarith⟩, fun hh => ⟨by linarith, by linarith⟩,
           fun hh => ⟨by linarith, by linarith⟩, fun hh => ⟨by linarith, by linarith⟩,
           fun hh => ⟨by linarith, by linarith⟩, fun hh => ⟨by linarith, by linarith⟩,
           ⟨by linarith, by linarith⟩, ⟨by linarith, by linarith⟩, ⟨by linarith, by linarith⟩⟩

/-- Witness for `demoConfidence_ranges` at `r1 = 0.9, r2 = 0.5` (a deepfake
draw for image/video and a synthetic draw for audio). -/
theorem demoConfidence_ranges_witness :
    (0.7 ≤ imageDemoConfidence 0.9 0.5 ∧ imageDemoConfidence 0.9 0.5 < 1) ∧
    (0.7 ≤ audioDemoConfidence 0.9 0.5 ∧ audioDemoConfidence 0.9 0.5 < 0.95) ∧
    (0 ≤ videoErrorDemoConfidence 0.9 0.5 ∧ videoErrorDemoConfidence 0.9 0.5 ≤ 1) :=
  ⟨(demoConfidence_ranges 0.9 0.5 (by norm_num) (by norm_num)).1 (by norm_num),
   (demoConfidence_ranges 0.9 0.5 (by norm_num) (by norm_num)).2.2.2.2.1 (by norm_num),
   (demoConfidence_ranges 0.9 0.5 (by norm_num) (by norm_num)).2.2.2.2.2.2.2.1⟩

/-- **C8**: for image and video results the handler sets
`isDeepfake = (confidence > 0.7)`, a threshold independent of the risk-level
buckets — a confidence in `[0.6, 0.7]` yields riskLevel HIGH with
`isDeepfake = false` while one in `(0.7, 0.8)` yields riskLevel HIGH with
`isDeepfake = true` — whereas for audio results `isDeepfake` is the demo
generator's `is_synthetic` flag, not a function of the confidence. -/
theorem isDeepfake_threshold (env : Env) (f : UploadedFile) (inp : AnalyzeInputs) :
    (∀ b d a, (handleAnalyze env (some f) inp).result = some (.image b d a) →
      b.isDeepfake = decide (b.confidence > 0.7)) ∧
    (∀ b d a, (handleAnalyze env (some f) inp).result = some (.video b d a) →
      b.isDeepfake = decide (b.confidence > 0.7)) ∧
    (∀ b d a, (handleAnalyze env (some f) inp).result = some (.audio b d a) →
      b.isDeepfake = d.isSynthetic ∧ d.isSynthetic = audioDemoIsSynthetic inp.r1) ∧
    (∀ c : ℚ, 0.6 ≤ c → c ≤ 0.7 → getRiskLevel c = .HIGH ∧ decide (c > (0.7 : ℚ)) = false) ∧
    (∀ c : ℚ, 0.7 < c → c < 0.8 → getRiskLevel c = .HIGH ∧ decide (c > (0.7 : ℚ)) = true) := by
  refine ⟨?_, ?_, ?_, ?_, ?_⟩
  · intro b d a h
    simp only [handleAnalyze] at h
    rcases hc : getFileCategory f.mimetype <;> simp only [hc] at h
    case image =>
      generalize (analyzeImage env inp.imageOutcome inp.r1 inp.r2
          inp.imgDemoPayload inp.imgApiPayload).1 = res at h
      cases res <;> simp at h
      obtain ⟨hb, hd, ha⟩ := h
      subst hb
      simp
    all_goals simp at h
  · intro b d a h
    simp only [handleAnalyze] at h
    rcases hc : getFileCategory f.mimetype <;> simp only [hc] at h
    case image =>
      generalize (analyzeImage env inp.imageOutcome inp.r1 inp.r2
          inp.imgDemoPayload inp.imgApiPayload).1 = res at h
      cases res <;> simp at h
    case video =>
      simp at h
      obtain ⟨hb, hd, ha⟩ := h
      subst hb
      simp
    all_goals simp at h
  · intro b d a h
    simp only [handleAnalyze] at h
    rcases hc : getFileCategory f.mimetype <;> simp only [hc] at h
    case image =>
      generalize (analyzeImage env inp.imageOutcome inp.r1 inp.r2
          inp.imgDemoPayload inp.imgApiPayload).1 = res at h
      cases res <;> simp at h
    case audio =>
      simp [analyzeAudio, generateEnhancedAudioResponse] at h
      obtain ⟨hb, hd, ha⟩ := h
      subst hb
      subst hd
      exact ⟨rfl, rfl⟩
    all_goals simp at h
  · intro c h1 h2
    refine ⟨?_, ?_⟩
    · unfold getRiskLevel
      split_ifs <;> simp_all <;> linarith
    · simp only [decide_eq_false_iff_not]
      exact not_lt.mpr h2
  · intro c h1 h2
    refine ⟨?_, ?_⟩
    · unfold getRiskLevel
      split_ifs <;> simp_all <;> linarith
    · exact decide_eq_true h1

/-- Witness for `isDeepfake_threshold`: at confidence 0.65 the risk level is
HIGH but the deepfake flag is false; at 0.75 the risk level is HIGH and the
flag is true. -/
theorem isDeepfake_threshold_witness :
    (getRiskLevel 0.65 = .HIGH ∧ decide ((0.65 : ℚ) > 0.7) = false) ∧
    (getRiskLevel 0.75 = .HIGH ∧ decide ((0.75 : ℚ) > 0.7) = true) :=
  ⟨(isDeepfake_threshold envAll ⟨"a.wav", "audio/wav", 10⟩ sampleInputs).2.2.2.1
      0.65 (by norm_num) (by norm_num),
   (isDeepfake_threshold envAll ⟨"a.wav", "audio/wav", 10⟩ sampleInputs).2.2.2.2
      0.75 (by norm_num) (by norm_num)⟩

/-- **C5, counterexample**: a successful video analysis response is produced
(here at concrete inputs, with `success = true` and a video-tagged result),
but its `videoAnalysis` object is not the shape the shared union declares: the
required `temporalAnalysis` member is absent from what the server builds and
`frameAnalysis` lacks the declared `analyzedFrames` member; likewise the audio
shape lacks the declared `technicalMetrics` and `emotionStability` members.
So the result is not exactly one of the three declared `AnalysisResult`
shapes. -/
theorem analysisResult_shape_counterexample :
    (handleAnalyze envAll (some ⟨"clip.mp4", "video/mp4", 100⟩) sampleInputs).success = true ∧
    ((handleAnalyze envAll (some ⟨"clip.mp4", "video/mp4", 100⟩) sampleInputs).result.map
      AnalysisResult.typeTag) = some .video ∧
    "temporalAnalysis" ∈ sharedVideoAnalysisRequiredFields ∧
    "temporalAnalysis" ∉ serverVideoAnalysisFields ∧
    "analyzedFrames" ∈ sharedVideoFrameAnalysisFields ∧
    "analyzedFrames" ∉ serverVideoFrameAnalysisFields ∧
    "technicalMetrics" ∈ sharedAudioAnalysisRequiredFields ∧
    "technicalMetrics" ∉ serverAudioAnalysisFields ∧
    "emotionStability" ∈ sharedVoiceCharacteristicsFields ∧
    "emotionStability" ∉ serverVoiceCharacteristicsFields := by
  refine ⟨rfl, rfl, ?_, ?_, ?_, ?_, ?_, ?_, ?_, ?_⟩ <;> decide

/-- **C5, amended**: every successful analyze response carries a result whose
type tag matches the uploaded file's category, built by the matching branch
(image with `sightengineData` and `imageAnalysis`, video with `sightengineData`
and `videoAnalysis`, audio with `resembleData` and `audioAnalysis`), and every
constructed result carries all nine `BaseAnalysisResult` fields by
construction; however the nested `videoAnalysis` and `audioAnalysis` objects
deviate from the member shapes the shared union declares. -/
theorem analysisResult_shape_amended (env : Env) (f : UploadedFile)
    (inp : AnalyzeInputs) :
    ((handleAnalyze env (some f) inp).success = true →
      ∃ r, (handleAnalyze env (some f) inp).result = some r ∧
        r.typeTag = getFileCategory f.mimetype) ∧
    (getFileCategory f.mimetype = .video ∨ getFileCategory f.mimetype = .audio →
      (handleAnalyze env (some f) inp).success = true) ∧
    ("temporalAnalysis" ∈ sharedVideoAnalysisRequiredFields ∧
      "temporalAnalysis" ∉ serverVideoAnalysisFields) ∧
    ("technicalMetrics" ∈ sharedAudioAnalysisRequiredFields ∧
      "technicalMetrics" ∉ serverAudioAnalysisFields) := by
  refine ⟨?_, ?_, by decide, by decide⟩
  · intro h
    simp only [handleAnalyze] at h ⊢
    rcases hc : getFileCategory f.mimetype <;> simp only [hc] at h ⊢
    case image =>
      generalize (analyzeImage env inp.imageOutcome inp.r1 inp.r2
          inp.imgDemoPayload inp.imgApiPayload).1 = res at h ⊢
      cases res <;> simp_all [AnalysisResult.typeTag]
    all_goals simp_all [AnalysisResult.typeTag]
  · intro h
    simp only [handleAnalyze]
    rcases h with h | h <;> rw [h]

/-- Witness for `analysisResult_shape_amended`: at a concrete audio upload the
response succeeds and its result is audio-tagged. -/
theorem analysisResult_shape_amended_witness :
    (∃ r, (handleAnalyze envAll (some ⟨"voice.wav", "audio/wav", 100⟩) sampleInputs).result =
        some r ∧ r.typeTag = getFileCategory "audio/wav") ∧
    (handleAnalyze envAll (some ⟨"voice.wav", "audio/wav", 100⟩) sampleInputs).success = true :=
  ⟨(analysisResult_shape_amended envAll ⟨"voice.wav", "audio/wav", 100⟩ sampleInputs).1 rfl,
   (analysisResult_shape_amended envAll ⟨"voice.wav", "audio/wav", 100⟩ sampleInputs).2.1
     (Or.inr (by decide))⟩

/-- Remaining files after cleanup equal the filter keeping ages ≤ 24 hours, and
the count is the number of strictly older files. -/
theorem cleanupLoop_filter (nowMs : ℤ) (files : List StoredFile) :
    (cleanupLoop nowMs files).1 =
      files.filter (fun f => !decide (ageInHours nowMs f > 24)) ∧
    (cleanupLoop nowMs files).2 =
      (files.filter (fun f => decide (ageInHours nowMs f > 24))).length := by
  induction files with
  | nil => exact ⟨rfl, rfl⟩
  | cons f rest ih =>
    unfold cleanupLoop
    by_cases h : ageInHours nowMs f > 24 <;> simp [h, List.filter, ih.1, ih.2]

/-- **C7**: the cleanup endpoint deletes exactly the files whose modification
time is more than 24 hours before the current time (equivalently, more than
86 400 000 ms old): every such file is gone from the remaining listing, every
file aged 24 hours or less survives, and the response reports success together
with the number of deleted files. -/
theorem cleanupFiles_deletes_old (nowMs : ℤ) (files : List StoredFile) :
    ((cleanupLoop nowMs files).1 =
      files.filter (fun f => !decide (ageInHours nowMs f > 24))) ∧
    (∀ f ∈ files, ageInHours nowMs f > 24 → f ∉ (cleanupLoop nowMs files).1) ∧
    (∀ f ∈ files, ageInHours nowMs f ≤ 24 → f ∈ (cleanupLoop nowMs files).1) ∧
    (cleanupFilesEndpoint nowMs files).success = true ∧
    (cleanupFilesEndpoint nowMs files).cleanedCount =
      (files.filter (fun f => decide (ageInHours nowMs f > 24))).length ∧
    (∀ f : StoredFile, ageInHours nowMs f > 24 ↔
      (nowMs - f.mtimeMs : ℚ) > 24 * (1000 * 60 * 60)) := by
  obtain ⟨h1, h2⟩ := cleanupLoop_filter nowMs files
  refine ⟨h1, ?_, ?_, rfl, h2, ?_⟩
  · intro f hf hold
    rw [h1]
    simp [List.mem_filter]
    intro _
    exact hold
  · intro f hf hyoung
    rw [h1]
    simp [List.mem_filter]
    exact ⟨hf, hyoung⟩
  · intro f
    unfold ageInHours
    rw [gt_iff_lt, lt_div_iff₀ (by norm_num)]
    push_cast
    constructor <;> intro h <;> linarith

/-- Witness for `cleanupFiles_deletes_old`: with the clock at 100 000 000 ms, a
file modified at time 0 (about 27.8 hours old) is deleted while a file modified
at 99 000 000 ms is kept, and the response reports one deletion. -/
theorem cleanupFiles_deletes_old_witness :
    (⟨"old.png", 0⟩ : StoredFile) ∉
      (cleanupLoop 100000000 [⟨"old.png", 0⟩, ⟨"new.png", 99000000⟩]).1 ∧
    (⟨"new.png", 99000000⟩ : StoredFile) ∈
      (cleanupLoop 100000000 [⟨"old.png", 0⟩, ⟨"new.png", 99000000⟩]).1 ∧
    (cleanupFilesEndpoint 100000000 [⟨"old.png", 0⟩, ⟨"new.png", 99000000⟩]).success = true ∧
    (cleanupFilesEndpoint 100000000 [⟨"old.png", 0⟩, ⟨"new.png", 99000000⟩]).cleanedCount = 1 := by
  have h := cleanupFiles_deletes_old 100000000 [⟨"old.png", 0⟩, ⟨"new.png", 99000000⟩]
  refine ⟨h.2.1 ⟨"old.png", 0⟩ (by decide) (by norm_num [ageInHours]),
          h.2.2.1 ⟨"new.png", 99000000⟩ (by decide) (by norm_num [ageInHours]),
          h.2.2.2.1, ?_⟩
  rw [h.2.2.2.2.1]
  norm_num [List.filter, ageInHours]
